import Mathlib

/-!
Shallow embedding of the Rubber Ducking Adventure quest engine
(`src/questTypes.ts`, `src/mentorResponses.ts`, `src/adventureEngine.ts`).

Conventions of the embedding:
* The TypeScript class `AdventureEngine` holds one mutable `AdventureContext`;
  here every operation takes the context and returns the result paired with
  the updated context.
* `Math.random()`-driven choices (`getRandomResponse`) are threaded through a
  `Pick` parameter (a function choosing one string from a pool), so theorems
  quantify over every possible random outcome.
* Wall-clock `Date` values (quest ids, timestamps, elapsed minutes) are not
  part of the logic the claims speak about: quest ids are passed in as an
  opaque string argument, `timestamp` fields are dropped, and elapsed/taken
  minutes are passed in as a `Nat` argument where a message displays them.
* JavaScript `String.prototype.includes`, `.toLowerCase` (the engine only
  compares against ASCII keywords) and the `/and/g` regex match count are
  embedded as executable functions over `List Char`.
* String literals are copied byte-for-byte from the repository files,
  including the mojibake characters present in `adventureEngine.ts`.
-/

set_option linter.unusedVariables false

namespace RubberDucking

/-- Enum `BugSeverity` from questTypes.ts. -/
inductive BugSeverity where
  | GOBLIN
  | ORC
  | TROLL
  | DRAGON
  | HYDRA
deriving DecidableEq, Repr

/-- Enum `QuestType` from questTypes.ts. -/
inductive QuestType where
  | LOGIC_QUEST
  | PERFORMANCE_QUEST
  | INTEGRATION_QUEST
  | UI_QUEST
  | DATA_QUEST
  | ARCHITECTURE_QUEST
deriving DecidableEq, Repr

/-- Enum `QuestPhase` from questTypes.ts. -/
inductive QuestPhase where
  | PREPARATION
  | INVESTIGATION
  | BATTLE
  | VICTORY
deriving DecidableEq, Repr

/-- The significance union type of `QuestFinding.significance` in questTypes.ts. -/
inductive Significance where
  | minor
  | moderate
  | major
  | breakthrough
deriving DecidableEq, Repr

/-- Interface `QuestFinding` from questTypes.ts (the wall-clock `timestamp`
field is outside the embedding). -/
structure QuestFinding where
  finding : String
  significance : Significance
deriving DecidableEq, Repr

/-- Interface `QuestMilestone` from questTypes.ts (the wall-clock `timestamp`
field is outside the embedding). -/
structure QuestMilestone where
  title : String
  description : String
  phase : QuestPhase
deriving DecidableEq, Repr

/-- Interface `Quest` from questTypes.ts (the wall-clock `startedAt` field is
outside the embedding). -/
structure Quest where
  id : String
  title : String
  description : String
  bugSeverity : BugSeverity
  questType : QuestType
  phase : QuestPhase
  techStack : Option (List String)
  findings : List QuestFinding
  milestones : List QuestMilestone
deriving DecidableEq, Repr

/-- Interface `AdventureContext` from questTypes.ts. -/
structure AdventureContext where
  currentQuest : Option Quest
  completedQuests : List Quest
  totalExperience : Nat
  heroLevel : Nat
deriving DecidableEq, Repr

/-- Interface `MentorResponse` from questTypes.ts. -/
structure MentorResponse where
  message : String
  questions : List String
  encouragement : String
  nextSuggestions : List String
deriving DecidableEq, Repr

/-- JavaScript `String.prototype.toLowerCase`, restricted to the ASCII range
(`Char.toLower` lowers exactly the ASCII letters; every keyword the engine
compares against is ASCII). -/
def lowerStr (s : String) : String := String.mk (s.data.map Char.toLower)

/-- Helper for `jsIncludes`: does `pat` occur as a contiguous run inside the
character list? -/
def listIsInfix (pat : List Char) : List Char → Bool
  | [] => pat.isEmpty
  | c :: rest => pat.isPrefixOf (c :: rest) || listIsInfix pat rest

/-- JavaScript `s.includes(pat)`: substring containment. -/
def jsIncludes (s pat : String) : Bool := listIsInfix pat.data s.data

/-- JavaScript `(s.match(/and/g) || []).length`: the number of non-overlapping
occurrences of the substring "and", scanning left to right. -/
def countAnd : List Char → Nat
  | 'a' :: 'n' :: 'd' :: rest => countAnd rest + 1
  | _ :: rest => countAnd rest
  | [] => 0

/-- JavaScript `s || d` for an optional string `s`: the empty string is falsy
and also falls back to the default. -/
def jsOrDefault (s : Option String) (d : String) : String :=
  match s with
  | some s => if s = "" then d else s
  | none => d

/-- A strategy for `getRandomResponse`: the engine's `Math.random()` selection
is abstracted as a function choosing one string from the pool, so theorems
quantify over every possible random outcome. -/
def Pick : Type := List String → String

/-- The deterministic pick-first strategy, used to instantiate witnesses. -/
def pickFirst : Pick := fun l => l.headD ""

/-- Function `getRandomResponse` from mentorResponses.ts, with the random
selection supplied by the `pick` strategy. -/
def getRandomResponse (pick : Pick) (responses : List String) : String :=
  pick responses

/-- Pool `MENTOR_RESPONSES.greetings` from mentorResponses.ts. -/

def greetings : List String := [
  "Greetings, brave code warrior! I sense a disturbance in the digital realm...",
  "Welcome back, noble developer! What villainous bug dares to challenge you today?",
  "Ah, another hero seeks wisdom in the art of bug slaying! Tell me of your quest...",
  "The ancient scrolls whisper of your coding prowess. What mystery brings you here?",
  "Hail and well met! I see the determination in your eyes. What beast shall we hunt?"]

/-- Table `MENTOR_RESPONSES.questions` from mentorResponses.ts: question pools keyed by quest type and phase. -/

def questionsTable : QuestType → QuestPhase → List String
  | QuestType.LOGIC_QUEST, QuestPhase.PREPARATION => [
      "What incantation (code) were you weaving when this logic goblin first appeared?",
      "Can you describe the expected behavior versus what this mischievous spirit is actually doing?",
      "What inputs are you feeding to this spell, and what outputs do you receive?",
      "Have you tried tracing through your logic step by step, like following footprints in the forest?"]
  | QuestType.LOGIC_QUEST, QuestPhase.INVESTIGATION => [
      "What happens if you test each condition in isolation, like examining each ingredient of a potion?",
      "Can you add some debugging runes (console logs) to see where the logic goes astray?",
      "What would happen if you walked through this code with different test cases?",
      "Are there any assumptions in your code that might not hold true in all scenarios?"]
  | QuestType.LOGIC_QUEST, QuestPhase.BATTLE => [
      "How might you restructure this logic to make it more transparent and less prone to trickery?",
      "What edge cases might your current approach be missing?",
      "Could breaking this complex spell into smaller, simpler enchantments help?",
      "How can you verify that your solution handles all the scenarios you\u0027ve discovered?"]
  | QuestType.LOGIC_QUEST, QuestPhase.VICTORY => [
      "Excellent! How does your solution handle the edge cases you discovered?",
      "What did you learn about this type of logic that you\u0027ll carry into future quests?",
      "How might you prevent similar logic goblins from appearing in the future?"]
  | QuestType.PERFORMANCE_QUEST, QuestPhase.PREPARATION => [
      "Where in your kingdom (application) have you noticed the performance dragon stirring?",
      "What actions or spells seem to awaken this sluggish beast?",
      "Have you measured the dragon\u0027s size? What metrics show the performance impact?",
      "When did you first notice this performance curse affecting your realm?"]
  | QuestType.PERFORMANCE_QUEST, QuestPhase.INVESTIGATION => [
      "What happens when you profile your code? Where do the performance bottlenecks lurk?",
      "Could there be unnecessary work being done, like casting the same spell repeatedly?",
      "Are you loading more data than needed, like carrying too much treasure in your pack?",
      "What tools can help you see where time is being spent in your application?"]
  | QuestType.PERFORMANCE_QUEST, QuestPhase.BATTLE => [
      "How might you optimize the most expensive operations you\u0027ve identified?",
      "Could caching or memoization help you avoid repeating costly computations?",
      "Are there more efficient algorithms or data structures you could employ?",
      "What trade-offs are you willing to make between performance and other qualities?"]
  | QuestType.PERFORMANCE_QUEST, QuestPhase.VICTORY => [
      "Magnificent! How much faster is your optimized solution?",
      "What performance monitoring will you put in place to catch future dragons early?",
      "What performance lessons will you apply to prevent similar issues?"]
  | QuestType.INTEGRATION_QUEST, QuestPhase.PREPARATION => [
      "Which external realm (API/service) is refusing to cooperate with your kingdom?",
      "What message exchanges are failing between your systems?",
      "Are you receiving error scrolls (status codes/error messages) from the other realm?",
      "What did the integration work like before this troll appeared?"]
  | QuestType.INTEGRATION_QUEST, QuestPhase.INVESTIGATION => [
      "Can you test the external service independently to verify it\u0027s working?",
      "What does the network traffic look like? Are your requests formatted correctly?",
      "Are authentication tokens or API keys still valid and properly configured?",
      "How does your error handling respond to different types of failures?"]
  | QuestType.INTEGRATION_QUEST, QuestPhase.BATTLE => [
      "How might you make your integration more resilient to temporary failures?",
      "What retry strategies or circuit breakers could protect your system?",
      "How can you better handle and communicate integration errors to users?",
      "What monitoring would help you detect integration issues quickly?"]
  | QuestType.INTEGRATION_QUEST, QuestPhase.VICTORY => [
      "Splendid! How does your solution handle various failure scenarios?",
      "What monitoring have you added to watch for future integration troubles?",
      "How will you test this integration going forward to prevent regressions?"]
  | QuestType.UI_QUEST, QuestPhase.PREPARATION => [
      "What visual enchantment is misbehaving in your user interface?",
      "On which viewing crystals (browsers/devices) does this UI goblin appear?",
      "What should the interface look like versus what users are actually seeing?",
      "When do users encounter this visual disturbance in their journey?"]
  | QuestType.UI_QUEST, QuestPhase.INVESTIGATION => [
      "What do the browser\u0027s developer tools reveal about the styling or layout?",
      "Are there CSS conflicts or JavaScript errors affecting the presentation?",
      "How does the interface behave at different screen sizes or zoom levels?",
      "What happens when you isolate the problematic component?"]
  | QuestType.UI_QUEST, QuestPhase.BATTLE => [
      "How might you restructure the CSS to be more predictable and maintainable?",
      "What responsive design patterns could better handle different screen sizes?",
      "How can you test this interface across different browsers and devices?",
      "What accessibility considerations should be addressed in your solution?"]
  | QuestType.UI_QUEST, QuestPhase.VICTORY => [
      "Wonderful! How does your interface now perform across different devices?",
      "What CSS or component patterns will you use to prevent similar UI issues?",
      "How will you test UI changes going forward to catch visual regressions?"]
  | QuestType.DATA_QUEST, QuestPhase.PREPARATION => [
      "What data sorcery is going awry in your information stores?",
      "Are you seeing incorrect, missing, or corrupted data in your repositories?",
      "What operations on your data seem to awaken this particular data demon?",
      "When did you first notice the data behaving strangely?"]
  | QuestType.DATA_QUEST, QuestPhase.INVESTIGATION => [
      "Can you trace the data\u0027s journey from source to destination?",
      "Are there data transformations or validations that might be affecting the information?",
      "What do your database queries return when tested directly?",
      "How does the data look at each step of processing?"]
  | QuestType.DATA_QUEST, QuestPhase.BATTLE => [
      "How might you add validation to catch data issues earlier in the process?",
      "What data integrity constraints could prevent corruption?",
      "How can you better handle edge cases in your data processing?",
      "What backup and recovery procedures should be in place?"]
  | QuestType.DATA_QUEST, QuestPhase.VICTORY => [
      "Excellent! How have you ensured data integrity going forward?",
      "What monitoring will alert you to similar data issues in the future?",
      "What validation patterns will you apply to prevent data corruption?"]
  | QuestType.ARCHITECTURE_QUEST, QuestPhase.PREPARATION => [
      "What architectural challenge threatens the stability of your digital kingdom?",
      "Which components or services are struggling to work together harmoniously?",
      "What scalability or maintainability issues are you encountering?",
      "How is this architectural dragon affecting your users or development team?"]
  | QuestType.ARCHITECTURE_QUEST, QuestPhase.INVESTIGATION => [
      "What are the key responsibilities and boundaries of each component?",
      "Where are the coupling points between different parts of your system?",
      "What quality attributes (performance, scalability, maintainability) are most important?",
      "How do current design patterns support or hinder your goals?"]
  | QuestType.ARCHITECTURE_QUEST, QuestPhase.BATTLE => [
      "How might you restructure components to better separate concerns?",
      "What patterns or principles could guide your architectural decisions?",
      "How can you ensure your architecture supports future growth and changes?",
      "What refactoring steps would move you toward your desired architecture?"]
  | QuestType.ARCHITECTURE_QUEST, QuestPhase.VICTORY => [
      "Magnificent! How does your new architecture better serve your requirements?",
      "What architectural principles will guide your future design decisions?",
      "How will you maintain architectural quality as your system evolves?"]

/-- Table `MENTOR_RESPONSES.encouragements` from mentorResponses.ts: encouragement pools keyed by severity. -/

def encouragements : BugSeverity → List String
  | BugSeverity.GOBLIN => [
      "Fear not, this goblin may be small but defeating it will sharpen your skills!",
      "Even mighty heroes started by conquering simple goblins. You\u0027ve got this!",
      "This minor creature won\u0027t stand long against your growing expertise!",
      "A quick victory over this goblin will boost your confidence for bigger battles!"]
  | BugSeverity.ORC => [
      "This orc requires strategy, but I sense the wisdom within you to overcome it!",
      "Moderate foes like this orc test your problem-solving prowess. Trust your instincts!",
      "You\u0027ve grown strong enough to face this orc. Take it step by step!",
      "This orc may be tougher than a goblin, but your skills have grown to match the challenge!"]
  | BugSeverity.TROLL => [
      "Trolls are formidable, but methodical heroes like yourself have conquered them before!",
      "This troll guards important knowledge. Defeating it will make you a stronger developer!",
      "Complex beasts like this troll require patience and persistence. You have both!",
      "The troll seems intimidating, but remember: every expert was once a beginner who didn\u0027t give up!"]
  | BugSeverity.DRAGON => [
      "Dragons are the ultimate test of a hero\u0027s skills. You wouldn\u0027t face one if you weren\u0027t ready!",
      "This dragon threatens your entire kingdom, but heroes like you are exactly what\u0027s needed!",
      "The greatest legends are born from dragon-slaying quests. This is your moment!",
      "Dragons have fallen before determined heroes. Your persistence will be the key to victory!"]
  | BugSeverity.HYDRA => [
      "The dreaded Hydra! Multiple heads require multiple strategies. Your systematic approach will prevail!",
      "Hydras are rare beasts that only the most experienced adventurers encounter. You\u0027re among the elite!",
      "Each head of this Hydra teaches a different lesson. Embrace the complex challenge!",
      "Multi-faceted problems create multi-talented heroes. This Hydra will make you legendary!"]

/-- Pool `MENTOR_RESPONSES.milestoneAcknowledgments` from mentorResponses.ts. -/

def milestoneAcknowledgments : List String := [
  "Excellent discovery! You\u0027ve uncovered an important clue in your quest!",
  "Your investigation skills grow stronger! This finding brings you closer to victory!",
  "Brilliant insight! The path forward becomes clearer with each discovery!",
  "Your persistence pays off! This breakthrough illuminates the way ahead!",
  "Masterful detection! You\u0027re developing the instincts of a true bug hunter!"]

/-- Pool `MENTOR_RESPONSES.victoryMessages` from mentorResponses.ts. -/

def victoryMessages : List String := [
  "🏆 Victory! Another bug vanquished by your heroic efforts! Your debugging prowess grows stronger!",
  "\u2694\ufe0f Triumphant! The digital realm is safer thanks to your noble quest! Well fought, brave warrior!",
  "🎉 Success! You\u0027ve proven once again that no bug can withstand a determined hero\u0027s resolve!",
  "\u2728 Glorious victory! Your systematic approach and persistence have saved the day once more!",
  "🛡\ufe0f Champion! Your debugging skills shine brighter with each conquered challenge!"]

/-- Function `getQuestQuestions` from mentorResponses.ts. The TypeScript
indexes a total nested record (the `|| []` fallback is dead for the enum
keys), embedded here as the total table lookup. -/
def getQuestQuestions (questType : QuestType) (phase : QuestPhase) : List String :=
  questionsTable questType phase

/-- Function `getEncouragement` from mentorResponses.ts. -/
def getEncouragement (pick : Pick) (severity : BugSeverity) : String :=
  getRandomResponse pick (encouragements severity)

/-- Function `getGreeting` from mentorResponses.ts. -/
def getGreeting (pick : Pick) : String :=
  getRandomResponse pick greetings

/-- Function `getMilestoneAcknowledgment` from mentorResponses.ts. -/
def getMilestoneAcknowledgment (pick : Pick) : String :=
  getRandomResponse pick milestoneAcknowledgments

/-- Function `getVictoryMessage` from mentorResponses.ts. -/
def getVictoryMessage (pick : Pick) : String :=
  getRandomResponse pick victoryMessages

/-- The keyword lists of `classifyBugSeverity` in adventureEngine.ts, rule 1:
critical indicators (checked against the lowercased description; the rule
also fires when the lowercased urgency contains "critical"). -/
def dragonRule (lowercaseDesc lowercaseUrgency : String) : Bool :=
  jsIncludes lowercaseDesc "crash" || jsIncludes lowercaseDesc "down" ||
    jsIncludes lowercaseDesc "critical" || jsIncludes lowercaseUrgency "critical" ||
    jsIncludes lowercaseDesc "production" || jsIncludes lowercaseDesc "outage"

/-- Rule 2 of `classifyBugSeverity`: complex/multi-faceted issues, including
the `/and/g` match count test. -/
def hydraRule (lowercaseDesc : String) : Bool :=
  jsIncludes lowercaseDesc "multiple" || jsIncludes lowercaseDesc "several" ||
    jsIncludes lowercaseDesc "various" || jsIncludes lowercaseDesc "complex" ||
    decide (countAnd lowercaseDesc.data > 2)

/-- Rule 3 of `classifyBugSeverity`: performance or integration issues. -/
def trollRule (lowercaseDesc : String) : Bool :=
  jsIncludes lowercaseDesc "slow" || jsIncludes lowercaseDesc "performance" ||
    jsIncludes lowercaseDesc "timeout" || jsIncludes lowercaseDesc "integration" ||
    jsIncludes lowercaseDesc "api" || jsIncludes lowercaseDesc "database"

/-- Rule 4 of `classifyBugSeverity`: moderate issues. -/
def orcRule (lowercaseDesc lowercaseUrgency : String) : Bool :=
  jsIncludes lowercaseDesc "feature" || jsIncludes lowercaseDesc "logic" ||
    jsIncludes lowercaseDesc "unexpected" || jsIncludes lowercaseUrgency "moderate"

/-- Method `classifyBugSeverity` of `AdventureEngine`: the ordered
first-match-wins rule chain over the lowercased description and urgency. -/
def classifyBugSeverity (description : String) (urgency : Option String) : BugSeverity :=
  let lowercaseDesc := lowerStr description
  let lowercaseUrgency := (urgency.map lowerStr).getD ""
  if dragonRule lowercaseDesc lowercaseUrgency then BugSeverity.DRAGON
  else if hydraRule lowercaseDesc then BugSeverity.HYDRA
  else if trollRule lowercaseDesc then BugSeverity.TROLL
  else if orcRule lowercaseDesc lowercaseUrgency then BugSeverity.ORC
  else BugSeverity.GOBLIN

/-- Method `classifyQuestType` of `AdventureEngine`. As in the source, the
joined lowercased `stackString` is computed but never read by any of the
keyword checks below, which scan only `lowercaseDesc`. -/
def classifyQuestType (description : String) (techStack : Option (List String)) : QuestType :=
  let lowercaseDesc := lowerStr description
  let stackString := lowerStr ((techStack.map (String.intercalate " ")).getD "")
  if jsIncludes lowercaseDesc "ui" || jsIncludes lowercaseDesc "css" ||
      jsIncludes lowercaseDesc "layout" || jsIncludes lowercaseDesc "styling" ||
      jsIncludes lowercaseDesc "responsive" || jsIncludes lowercaseDesc "display" then
    QuestType.UI_QUEST
  else if jsIncludes lowercaseDesc "performance" || jsIncludes lowercaseDesc "slow" ||
      jsIncludes lowercaseDesc "optimization" || jsIncludes lowercaseDesc "memory" ||
      jsIncludes lowercaseDesc "speed" || jsIncludes lowercaseDesc "timeout" then
    QuestType.PERFORMANCE_QUEST
  else if jsIncludes lowercaseDesc "api" || jsIncludes lowercaseDesc "integration" ||
      jsIncludes lowercaseDesc "service" || jsIncludes lowercaseDesc "external" ||
      jsIncludes lowercaseDesc "webhook" || jsIncludes lowercaseDesc "third-party" then
    QuestType.INTEGRATION_QUEST
  else if jsIncludes lowercaseDesc "database" || jsIncludes lowercaseDesc "data" ||
      jsIncludes lowercaseDesc "query" || jsIncludes lowercaseDesc "storage" ||
      jsIncludes lowercaseDesc "migration" || jsIncludes lowercaseDesc "sql" then
    QuestType.DATA_QUEST
  else if jsIncludes lowercaseDesc "architecture" || jsIncludes lowercaseDesc "design" ||
      jsIncludes lowercaseDesc "structure" || jsIncludes lowercaseDesc "refactor" ||
      jsIncludes lowercaseDesc "scalability" || jsIncludes lowercaseDesc "maintainability" then
    QuestType.ARCHITECTURE_QUEST
  else
    QuestType.LOGIC_QUEST

/-- Table `severityTitles` inside `generateQuestTitle`. -/
def severityTitles : BugSeverity → String
  | BugSeverity.GOBLIN => "The Goblin Incident"
  | BugSeverity.ORC => "The Orc Uprising"
  | BugSeverity.TROLL => "The Troll\u0027s Challenge"
  | BugSeverity.DRAGON => "The Dragon\u0027s Curse"
  | BugSeverity.HYDRA => "The Hydra\u0027s Many Heads"

/-- Table `typeTitles` inside `generateQuestTitle`. -/
def typeTitles : QuestType → String
  | QuestType.LOGIC_QUEST => "Logic Labyrinth"
  | QuestType.PERFORMANCE_QUEST => "Performance Peril"
  | QuestType.INTEGRATION_QUEST => "Integration Invasion"
  | QuestType.UI_QUEST => "Interface Intrigue"
  | QuestType.DATA_QUEST => "Data Dungeon"
  | QuestType.ARCHITECTURE_QUEST => "Architecture Awakening"

/-- Method `generateQuestTitle` of `AdventureEngine`. -/
def generateQuestTitle (severity : BugSeverity) (type : QuestType) : String :=
  severityTitles severity ++ " in the " ++ typeTitles type

/-- Method `getBugDescription` of `AdventureEngine` (mojibake copied from the
source file). -/
def getBugDescription : BugSeverity → String
  | BugSeverity.GOBLIN => "A mischievous goblin \u00f0\u0178\u00a7\u0152"
  | BugSeverity.ORC => "A cunning orc warrior \u00e2\u0161\u201d\u00ef\u00b8"
  | BugSeverity.TROLL => "A formidable troll \u00f0\u0178\u2018\u00b9"
  | BugSeverity.DRAGON => "A mighty dragon \u00f0\u0178\u2030"
  | BugSeverity.HYDRA => "The dreaded multi-headed hydra \u00f0\u0178"

/-- Method `getQuestTypeDescription` of `AdventureEngine`. -/
def getQuestTypeDescription : QuestType → String
  | QuestType.LOGIC_QUEST => "Logic & Algorithms"
  | QuestType.PERFORMANCE_QUEST => "Performance & Optimization"
  | QuestType.INTEGRATION_QUEST => "API & Integration"
  | QuestType.UI_QUEST => "User Interface"
  | QuestType.DATA_QUEST => "Data & Storage"
  | QuestType.ARCHITECTURE_QUEST => "System Architecture"

/-- Method `getPhaseDescription` of `AdventureEngine` (mojibake copied from
the source file). -/
def getPhaseDescription : QuestPhase → String
  | QuestPhase.PREPARATION => "\u00f0\u0178\u203a\u00a1\u00ef\u00b8 Preparation - Gathering intelligence and understanding the challenge"
  | QuestPhase.INVESTIGATION => "\u00f0\u0178\u201d Investigation - Exploring theories and testing hypotheses"
  | QuestPhase.BATTLE => "\u00e2\u0161\u201d\u00ef\u00b8 Battle - Implementing and refining solutions"
  | QuestPhase.VICTORY => "\u00f0\u0178\u2020 Victory - Challenge conquered!"

/-- Method `addMilestone` of `AdventureEngine`: appends a milestone stamped
with the quest\u0027s (already updated) phase. -/
def addMilestone (quest : Quest) (title description : String) : Quest :=
  { quest with milestones := quest.milestones ++ [{ title, description, phase := quest.phase }] }

/-- Method `updateQuestPhase` of `AdventureEngine`: the two rule-driven phase
advances, evaluated over the whole finding history. The source mutates
`quest.phase` before calling `addMilestone`, so the milestone carries the new
phase. -/
def updateQuestPhase (quest : Quest) : Quest :=
  let findingCount := quest.findings.length
  let hasBreakthrough := quest.findings.any (fun f => f.significance == Significance.breakthrough)
  if quest.phase = QuestPhase.PREPARATION ∧ findingCount ≥ 3 then
    addMilestone { quest with phase := QuestPhase.INVESTIGATION }
      "Investigation Phase" "Gathered enough information to begin deeper investigation"
  else if quest.phase = QuestPhase.INVESTIGATION ∧ (hasBreakthrough = true ∨ findingCount ≥ 6) then
    addMilestone { quest with phase := QuestPhase.BATTLE }
      "Battle Phase" "Ready to implement and test solutions"
  else
    quest

/-- Method `getNextSuggestions` of `AdventureEngine` (`baseSuggestions`,
keyed by the quest phase). -/
def getNextSuggestions (quest : Quest) : List String :=
  match quest.phase with
  | QuestPhase.PREPARATION => [
      "Gather more details about the problem",
      "Create a minimal reproduction case",
      "Check what changed recently"]
  | QuestPhase.INVESTIGATION => [
      "Test your hypotheses systematically",
      "Add debugging information to see what\u0027s happening",
      "Try isolating the problem area"]
  | QuestPhase.BATTLE => [
      "Implement a focused solution",
      "Test your fix thoroughly",
      "Consider edge cases and potential side effects"]
  | QuestPhase.VICTORY => [
      "Document your solution",
      "Add tests to prevent regression",
      "Share your learnings with the team"]

/-- Table `baseXP` inside `calculateExperience`. -/
def baseXP : BugSeverity → Nat
  | BugSeverity.GOBLIN => 10
  | BugSeverity.ORC => 25
  | BugSeverity.TROLL => 50
  | BugSeverity.DRAGON => 100
  | BugSeverity.HYDRA => 150

/-- Method `calculateExperience` of `AdventureEngine`. -/
def calculateExperience (quest : Quest) : Nat :=
  let findingsBonus := quest.findings.length * 2
  let milestonesBonus := quest.milestones.length * 5
  baseXP quest.bugSeverity + findingsBonus + milestonesBonus

/-- The constructor of `AdventureEngine`: no active quest, no completed
quests, 0 XP, hero level 1. -/
def initialContext : AdventureContext :=
  { currentQuest := none, completedQuests := [], totalExperience := 0, heroLevel := 1 }

/-- Method `startQuest` of `AdventureEngine`. The quest id (timestamp plus
random suffix in the source) is passed in as the opaque `questId`. -/
def startQuest (pick : Pick) (questId : String) (description : String)
    (techStack : Option (List String)) (urgency : Option String)
    (ctx : AdventureContext) : (Quest × MentorResponse) × AdventureContext :=
  let bugSeverity := classifyBugSeverity description urgency
  let questType := classifyQuestType description techStack
  let quest : Quest := {
    id := questId,
    title := generateQuestTitle bugSeverity questType,
    description := description,
    bugSeverity := bugSeverity,
    questType := questType,
    phase := QuestPhase.PREPARATION,
    techStack := techStack,
    findings := [],
    milestones := [] }
  let ctx := { ctx with currentQuest := some quest }
  let questions := getQuestQuestions questType QuestPhase.PREPARATION
  let encouragement := getEncouragement pick bugSeverity
  let response : MentorResponse := {
    message := getGreeting pick ++ "\n\n\u00f0\u0178\u201c\u0153 **" ++ quest.title ++ "**\n\n" ++
      description ++ "\n\n" ++ getBugDescription bugSeverity ++ " awaits your investigation!",
    questions := questions.take 3,
    encouragement := encouragement,
    nextSuggestions := [
      "Gather more information about when and how the issue occurs",
      "Identify what changed recently that might have caused this",
      "Create a minimal reproduction case if possible"] }
  ((quest, response), ctx)

/-- Method `continueQuest` of `AdventureEngine` (the source defaults
`significance` to moderate; callers here always pass it explicitly). -/
def continueQuest (pick : Pick) (finding : String) (significance : Significance)
    (ctx : AdventureContext) : MentorResponse × AdventureContext :=
  match ctx.currentQuest with
  | none =>
    ({ message := "No active quest found! Use \u0027start_quest\u0027 to begin your debugging adventure.",
       questions := [],
       encouragement := "Ready to embark on a new debugging quest?",
       nextSuggestions := ["Start a new quest to begin your debugging journey"] }, ctx)
  | some quest =>
    let quest := { quest with findings := quest.findings ++ [{ finding := finding, significance := significance }] }
    let quest := updateQuestPhase quest
    let questions := getQuestQuestions quest.questType quest.phase
    let acknowledgment :=
      if significance = Significance.breakthrough then getMilestoneAcknowledgment pick
      else "Interesting discovery! This information helps build our understanding."
    let nextSuggestions := getNextSuggestions quest
    ({ message := acknowledgment ++ "\n\n**Your Finding:** " ++ finding ++
         "\n\n**Current Phase:** " ++ getPhaseDescription quest.phase,
       questions := questions.take 3,
       encouragement := getEncouragement pick quest.bugSeverity,
       nextSuggestions := nextSuggestions }, { ctx with currentQuest := some quest })

/-- Method `getQuestStatus` of `AdventureEngine`: a pure read. The elapsed
whole minutes since `startedAt` (a wall-clock read in the source) are passed
in as `timeElapsed`. -/
def getQuestStatus (timeElapsed : Nat) (ctx : AdventureContext) : String :=
  match ctx.currentQuest with
  | none => "\u00f0\u0178\u00b0 No active quest. Ready to face a new debugging challenge?"
  | some quest =>
    "\u00f0\u0178\u2014\u00a1\u00ef\u00b8 **" ++ quest.title ++ "**\n    \n**Beast Type:** " ++
      getBugDescription quest.bugSeverity ++ "\n**Quest Type:** " ++
      getQuestTypeDescription quest.questType ++ "  \n**Phase:** " ++
      getPhaseDescription quest.phase ++ "\n**Time Elapsed:** " ++ toString timeElapsed ++
      " minutes\n**Findings Collected:** " ++ toString quest.findings.length ++
      "\n**Milestones Achieved:** " ++ toString quest.milestones.length ++
      "\n\n**Recent Findings:**\n" ++
      String.intercalate "\n"
        ((quest.findings.drop (quest.findings.length - 3)).map (fun f => "\u00e2\u20ac\u00a2 " ++ f.finding)) ++
      "\n\n**Hero Level:** " ++ toString ctx.heroLevel ++ " \n**Total Experience:** " ++
      toString ctx.totalExperience ++ " XP\n**Completed Quests:** " ++
      toString ctx.completedQuests.length

/-- Method `seekWisdom` of `AdventureEngine`: a pure read returning guidance
for the requested help type (mojibake copied from the source file). -/
def seekWisdom (pick : Pick) (helpType : String)
    (ctx : AdventureContext) : MentorResponse × AdventureContext :=
  match ctx.currentQuest with
  | none =>
    ({ message := "Start a quest first, brave hero! I can only provide guidance when you have an active debugging challenge.",
       questions := [],
       encouragement := "Every great adventure begins with a single step!",
       nextSuggestions := ["Begin a new debugging quest"] }, ctx)
  | some quest =>
    let helpTypeLower := lowerStr helpType
    let bucket : String × List String :=
      if jsIncludes helpTypeLower "approach" || jsIncludes helpTypeLower "strategy" then
        ("\u00f0\u0178\u00a7\u2122\u00e2\u20ac\u00e2\u2122\u201a\u00ef\u00b8 **Strategic Wisdom**\n\nWhen facing complex bugs, remember the hero\u0027s methodology:",
         ["Have you clearly defined what \u0027success\u0027 looks like for solving this issue?",
          "What\u0027s the simplest way you could reproduce this problem?",
          "If you had to explain this bug to someone else, what would you say?",
          "What assumptions are you making that might not be true?"])
      else if jsIncludes helpTypeLower "test" || jsIncludes helpTypeLower "verify" then
        ("\u00f0\u0178\u201d **Testing Wisdom**\n\nEvery good hero tests their theories before charging into battle:",
         ["What\u0027s the smallest change you could make to test your hypothesis?",
          "How can you isolate this issue from other potential problems?",
          "What would happen if you removed or simplified the problematic code?",
          "How can you verify that your solution actually fixes the root cause?"])
      else if jsIncludes helpTypeLower "investigate" || jsIncludes helpTypeLower "explore" then
        ("\u00f0\u0178\u201d\u017d **Investigation Wisdom**\n\nTrue heroes gather intelligence before striking:",
         ["What clues does your development environment provide (logs, debugger, etc.)?",
          "When did this problem first appear? What changed around that time?",
          "Are there similar patterns elsewhere in your codebase?",
          "What would someone unfamiliar with this code need to understand the issue?"])
      else
        ("\u00f0\u0178\u017d\u00af **General Wisdom**\n\nRemember the fundamental principles of debugging:",
         (getQuestQuestions quest.questType quest.phase).take 3)
    ({ message := bucket.1,
       questions := bucket.2,
       encouragement := getEncouragement pick quest.bugSeverity,
       nextSuggestions := getNextSuggestions quest }, ctx)

/-- Method `completeQuest` of `AdventureEngine`. The elapsed whole minutes
shown in the message (a wall-clock read in the source) are passed in as
`timeTaken`. -/
def completeQuest (pick : Pick) (solutionSummary : Option String) (timeTaken : Nat)
    (ctx : AdventureContext) : MentorResponse × AdventureContext :=
  match ctx.currentQuest with
  | none =>
    ({ message := "No active quest to complete! Start a new adventure when you\u0027re ready.",
       questions := [],
       encouragement := "Every master was once a beginner!",
       nextSuggestions := ["Begin a new debugging quest"] }, ctx)
  | some quest =>
    let quest := { quest with phase := QuestPhase.VICTORY }
    let victoryMilestone : QuestMilestone := {
      title := "Quest Completed!",
      description := jsOrDefault solutionSummary "Hero successfully vanquished the bug!",
      phase := QuestPhase.VICTORY }
    let quest := { quest with milestones := quest.milestones ++ [victoryMilestone] }
    let experienceGained := calculateExperience quest
    let totalExperience := ctx.totalExperience + experienceGained
    let newLevel := totalExperience / 100 + 1
    let leveledUp := decide (newLevel > ctx.heroLevel)
    let ctx2 : AdventureContext := {
      currentQuest := none,
      completedQuests := ctx.completedQuests ++ [quest],
      totalExperience := totalExperience,
      heroLevel := newLevel }
    let victoryMessage := getVictoryMessage pick
    let levelUpMessage :=
      if leveledUp then
        "\n\n\u00f0\u0178\u0152\u0178 **LEVEL UP!** You are now a Level " ++ toString ctx2.heroLevel ++ " Debug Hero!"
      else ""
    ({ message := victoryMessage ++ levelUpMessage ++ "\n\n**Quest Summary:** " ++ quest.title ++
         "\n**Solution:** " ++ jsOrDefault solutionSummary "Bug successfully eliminated!" ++
         "\n**Experience Gained:** " ++ toString experienceGained ++ " XP\n**Time Taken:** " ++
         toString timeTaken ++ " minutes",
       questions := [
         "What did you learn from this quest that you\u0027ll apply to future challenges?",
         "How might you prevent similar bugs from appearing in the future?",
         "What debugging techniques proved most effective for this type of issue?"],
       encouragement := "Your growing expertise makes the digital realm safer for all!",
       nextSuggestions := [
         "Document your solution for future reference",
         "Share your knowledge with fellow developers",
         "Stay vigilant for new debugging challenges"] }, ctx2)

/-- Concrete quest fixture used to instantiate theorems: a GOBLIN/LOGIC quest
(the classification of the keyword-free description "oops") with a chosen
phase, findings and milestones. -/
def sampleQuest (p : QuestPhase) (fs : List QuestFinding) (ms : List QuestMilestone) : Quest :=
  { id := "quest_1", title := "t", description := "oops", bugSeverity := BugSeverity.GOBLIN,
    questType := QuestType.LOGIC_QUEST, phase := p, techStack := none, findings := fs,
    milestones := ms }

/-- Concrete context fixture: a fresh hero holding the given current quest. -/
def ctxWith (q : Quest) : AdventureContext :=
  { currentQuest := some q, completedQuests := [], totalExperience := 0, heroLevel := 1 }

/-- Position of a phase along the progression chain
PREPARATION < INVESTIGATION < BATTLE < VICTORY. -/
def phaseIdx : QuestPhase → Nat
  | QuestPhase.PREPARATION => 0
  | QuestPhase.INVESTIGATION => 1
  | QuestPhase.BATTLE => 2
  | QuestPhase.VICTORY => 3

/-- The DRAGON-rule description keywords of `classifyBugSeverity`. -/
def dragonKeywords : List String := ["crash", "down", "critical", "production", "outage"]

/-- Splits a character list into space-delimited words (accumulator holds the
current word reversed). -/
def wordsAux (cur : List Char) : List Char → List (List Char)
  | [] => [cur.reverse]
  | c :: rest => if c = ' ' then cur.reverse :: wordsAux [] rest else wordsAux (c :: cur) rest

/-- Modelled from the spec: the spec words the second part of the HYDRA rule
as "the description contains the token \"and\" more than twice", i.e. a count
of whole space-delimited words equal to "and" in the lowercased description
(the source instead counts `/and/g` substring matches — see `countAnd`). -/
def specAndTokenCount (s : String) : Nat :=
  ((wordsAux [] (lowerStr s).data).filter (fun w => w = "and".data)).length

/-- One engine operation applicable during a quest\u0027s lifetime (every
operation except `startQuest`, which begins a new lifetime). Wall-clock
arguments are carried as opaque `Nat`s as in the operation embeddings. -/
inductive QuestOp where
  | append (finding : String) (significance : Significance)
  | seek (helpType : String)
  | statusCheck (timeElapsed : Nat)
  | close (solutionSummary : Option String) (timeTaken : Nat)

/-- The state effect of one engine operation (`getQuestStatus` is a pure
read, so `statusCheck` returns the context unchanged). -/
def stepOp (pick : Pick) : QuestOp → AdventureContext → AdventureContext
  | QuestOp.append f s, ctx => (continueQuest pick f s ctx).2
  | QuestOp.seek h, ctx => (seekWisdom pick h ctx).2
  | QuestOp.statusCheck e, ctx =>
    let _ := getQuestStatus e ctx
    ctx
  | QuestOp.close sol t, ctx => (completeQuest pick sol t ctx).2

/-- Runs a sequence of engine operations left to right. -/
def runOps (pick : Pick) : List QuestOp → AdventureContext → AdventureContext
  | [], ctx => ctx
  | op :: rest, ctx => runOps pick rest (stepOp pick op ctx)

lemma updateQuestPhase_phase_spec (q : Quest) :
    (updateQuestPhase q).phase =
      (if q.phase = QuestPhase.PREPARATION ∧ q.findings.length ≥ 3 then QuestPhase.INVESTIGATION
       else if q.phase = QuestPhase.INVESTIGATION ∧
           (q.findings.any (fun f => f.significance == Significance.breakthrough) = true ∨
             q.findings.length ≥ 6) then QuestPhase.BATTLE
       else q.phase) := by
  unfold updateQuestPhase
  dsimp only
  split
  · rename_i h
    simp [addMilestone, h]
  · split
    · rename_i h1 h2
      simp [addMilestone, h1, h2]
    · rename_i h1 h2
      simp [h1, h2]

lemma updateQuestPhase_findings (q : Quest) : (updateQuestPhase q).findings = q.findings := by
  unfold updateQuestPhase
  dsimp only
  split
  · simp [addMilestone]
  · split
    · simp [addMilestone]
    · rfl

lemma updateQuestPhase_cases (q : Quest) :
    (updateQuestPhase q = q) ∨
    ((updateQuestPhase q).phase ≠ q.phase ∧
      (updateQuestPhase q).milestones.length = q.milestones.length + 1) := by
  unfold updateQuestPhase
  dsimp only
  split
  · right
    rename_i h
    simp [addMilestone, h.1]
  · split
    · right
      rename_i h1 h
      simp [addMilestone, h.1]
    · left
      rfl

lemma updateQuestPhase_mono (q : Quest) :
    phaseIdx q.phase ≤ phaseIdx (updateQuestPhase q).phase := by
  rw [updateQuestPhase_phase_spec]
  split
  · rename_i h
    rw [h.1]
    decide
  · split
    · rename_i h1 h
      rw [h.1]
      decide
    · exact le_refl _

lemma updateQuestPhase_le_succ (q : Quest) :
    phaseIdx (updateQuestPhase q).phase ≤ phaseIdx q.phase + 1 := by
  rw [updateQuestPhase_phase_spec]
  split
  · rename_i h
    rw [h.1]
    decide
  · split
    · rename_i h1 h
      rw [h.1]
      decide
    · exact Nat.le_succ _

lemma updateQuestPhase_ne_victory (q : Quest) (h : q.phase ≠ QuestPhase.VICTORY) :
    (updateQuestPhase q).phase ≠ QuestPhase.VICTORY := by
  rw [updateQuestPhase_phase_spec]
  split
  · simp
  · split
    · simp
    · exact h

lemma continueQuest_snd_some (pick : Pick) (f : String) (s : Significance)
    (ctx : AdventureContext) (q : Quest) (hq : ctx.currentQuest = some q) :
    (continueQuest pick f s ctx).2 =
      { ctx with currentQuest := (some (updateQuestPhase
          { q with findings := q.findings ++ [{ finding := f, significance := s }] })) } := by
  unfold continueQuest
  rw [hq]

lemma continueQuest_snd_none (pick : Pick) (f : String) (s : Significance)
    (ctx : AdventureContext) (hq : ctx.currentQuest = none) :
    (continueQuest pick f s ctx).2 = ctx := by
  unfold continueQuest
  rw [hq]

lemma seekWisdom_snd (pick : Pick) (h : String) (ctx : AdventureContext) :
    (seekWisdom pick h ctx).2 = ctx := by
  unfold seekWisdom
  cases hc : ctx.currentQuest <;> rfl

lemma completeQuest_snd_none (pick : Pick) (sol : Option String) (t : Nat)
    (ctx : AdventureContext) (hq : ctx.currentQuest = none) :
    (completeQuest pick sol t ctx).2 = ctx := by
  unfold completeQuest
  rw [hq]

lemma completeQuest_clears (pick : Pick) (sol : Option String) (t : Nat)
    (ctx : AdventureContext) (q : Quest) (hq : ctx.currentQuest = some q) :
    (completeQuest pick sol t ctx).2.currentQuest = none := by
  unfold completeQuest
  rw [hq]

lemma stepOp_none (pick : Pick) (op : QuestOp) (ctx : AdventureContext)
    (hq : ctx.currentQuest = none) : (stepOp pick op ctx).currentQuest = none := by
  cases op with
  | append f s =>
    simp only [stepOp]
    rw [continueQuest_snd_none pick f s ctx hq]
    exact hq
  | seek h =>
    simp only [stepOp]
    rw [seekWisdom_snd]
    exact hq
  | statusCheck e => exact hq
  | close sol t =>
    simp only [stepOp]
    rw [completeQuest_snd_none pick sol t ctx hq]
    exact hq

lemma runOps_none (pick : Pick) (ops : List QuestOp) (ctx : AdventureContext)
    (hq : ctx.currentQuest = none) : (runOps pick ops ctx).currentQuest = none := by
  induction ops generalizing ctx with
  | nil => exact hq
  | cons op rest ih =>
    simp only [runOps]
    exact ih _ (stepOp_none pick op ctx hq)

/-- C2: the spec and the method\u0027s own doc comment say `classifyQuestType`
scans the concatenation of description and techStack, but the computed
`stackString` is never read: with the keyword-free description "oops" the
result is `LOGIC_QUEST` for every techStack, including `["css"]`, while the
same keyword supplied through the description does select `UI_QUEST`. -/
theorem C2_classifyQuestType_ignores_techStack :
    (∀ techStack, classifyQuestType "oops" techStack = QuestType.LOGIC_QUEST) ∧
    classifyQuestType "oops css" none = QuestType.UI_QUEST := by
  constructor
  · intro ts
    rfl
  · decide

/-- C8: `startQuest` always succeeds, installs a fresh quest at phase
PREPARATION with empty findings and milestones, classified by the two
classifier functions, and leaves cumulative XP, hero level and the
completed-quest history exactly as before — even when a quest was already
active, which is discarded without being archived. -/
theorem C8_startQuest_frame (pick : Pick) (qid d : String) (ts : Option (List String))
    (u : Option String) (ctx : AdventureContext) :
    ∃ q, (startQuest pick qid d ts u ctx).2.currentQuest = some q ∧
      q.phase = QuestPhase.PREPARATION ∧ q.findings = [] ∧ q.milestones = [] ∧
      q.bugSeverity = classifyBugSeverity d u ∧ q.questType = classifyQuestType d ts ∧
      (startQuest pick qid d ts u ctx).2.totalExperience = ctx.totalExperience ∧
      (startQuest pick qid d ts u ctx).2.heroLevel = ctx.heroLevel ∧
      (startQuest pick qid d ts u ctx).2.completedQuests = ctx.completedQuests :=
  ⟨_, rfl, rfl, rfl, rfl, rfl, rfl, rfl, rfl, rfl⟩

/-- C9 (amended): `seekWisdom` mutates no state at all — the context, hence
the current quest\u0027s phase, findings, milestones and every Hero Progress
field, is returned unchanged. (The other half of the original claim is
refuted by `C9_counterexample`: the result does consult the quest\u0027s
phase.) -/
theorem C9_seekWisdom_no_mutation (pick : Pick) (helpType : String) (ctx : AdventureContext) :
    (seekWisdom pick helpType ctx).2 = ctx := by
  unfold seekWisdom
  cases hc : ctx.currentQuest <;> rfl

/-- C9 counterexample: the original claim says the result of `seekWisdom`
does not depend on the quest\u0027s phase; here two states identical except
for the phase (PREPARATION vs BATTLE) give different results for the same
helpType, because `getNextSuggestions` selects by phase (and the general
bucket\u0027s questions consult the phase as well). -/
theorem C9_counterexample :
    (seekWisdom pickFirst "approach" (ctxWith (sampleQuest QuestPhase.PREPARATION [] []))).1 ≠
      (seekWisdom pickFirst "approach" (ctxWith (sampleQuest QuestPhase.BATTLE [] []))).1 := by
  decide

/-- C1 (amended): when no current quest exists, `continueQuest`, `seekWisdom`
and `completeQuest` each return a fixed in-character no-quest guidance
payload — an ordinary `MentorResponse`, not a distinguishable error kind, and
the three payloads differ from one another — and leave all engine state (the
current-quest slot and every Hero Progress field) unchanged. -/
theorem C1_noQuest_operations (pick : Pick) (f : String) (s : Significance) (h : String)
    (sol : Option String) (t : Nat) (ctx : AdventureContext) (hq : ctx.currentQuest = none) :
    continueQuest pick f s ctx =
      ({ message := "No active quest found! Use \u0027start_quest\u0027 to begin your debugging adventure.",
         questions := [],
         encouragement := "Ready to embark on a new debugging quest?",
         nextSuggestions := ["Start a new quest to begin your debugging journey"] }, ctx) ∧
    seekWisdom pick h ctx =
      ({ message := "Start a quest first, brave hero! I can only provide guidance when you have an active debugging challenge.",
         questions := [],
         encouragement := "Every great adventure begins with a single step!",
         nextSuggestions := ["Begin a new debugging quest"] }, ctx) ∧
    completeQuest pick sol t ctx =
      ({ message := "No active quest to complete! Start a new adventure when you\u0027re ready.",
         questions := [],
         encouragement := "Every master was once a beginner!",
         nextSuggestions := ["Begin a new debugging quest"] }, ctx) := by
  unfold continueQuest seekWisdom completeQuest
  rw [hq]
  exact ⟨rfl, rfl, rfl⟩

/-- C1 witness: the amended theorem applied to the initial context (which has
no current quest) at concrete arguments. -/
theorem C1_witness :
    continueQuest pickFirst "x" Significance.moderate initialContext =
      ({ message := "No active quest found! Use \u0027start_quest\u0027 to begin your debugging adventure.",
         questions := [],
         encouragement := "Ready to embark on a new debugging quest?",
         nextSuggestions := ["Start a new quest to begin your debugging journey"] }, initialContext) ∧
    seekWisdom pickFirst "y" initialContext =
      ({ message := "Start a quest first, brave hero! I can only provide guidance when you have an active debugging challenge.",
         questions := [],
         encouragement := "Every great adventure begins with a single step!",
         nextSuggestions := ["Begin a new debugging quest"] }, initialContext) ∧
    completeQuest pickFirst none 0 initialContext =
      ({ message := "No active quest to complete! Start a new adventure when you\u0027re ready.",
         questions := [],
         encouragement := "Every master was once a beginner!",
         nextSuggestions := ["Begin a new debugging quest"] }, initialContext) :=
  C1_noQuest_operations pickFirst "x" Significance.moderate "y" none 0 initialContext rfl

/-- C1 counterexample: the original claim says the no-quest case fails with a
single distinguishable error kind rather than an ordinary guidance payload.
At this concrete no-quest state each of the three operations instead returns
an ordinary `MentorResponse` payload with populated guidance fields (the very
record type every successful call returns, handled identically by the
caller), and the three payloads are pairwise distinct — so there is no single
`NoActiveQuestError` result to distinguish. -/
theorem C1_counterexample :
    (continueQuest pickFirst "x" Significance.moderate initialContext).1.nextSuggestions =
      ["Start a new quest to begin your debugging journey"] ∧
    (seekWisdom pickFirst "y" initialContext).1.nextSuggestions = ["Begin a new debugging quest"] ∧
    (completeQuest pickFirst none 0 initialContext).1.nextSuggestions = ["Begin a new debugging quest"] ∧
    (continueQuest pickFirst "x" Significance.moderate initialContext).1 ≠
      (seekWisdom pickFirst "y" initialContext).1 ∧
    (continueQuest pickFirst "x" Significance.moderate initialContext).1 ≠
      (completeQuest pickFirst none 0 initialContext).1 ∧
    (seekWisdom pickFirst "y" initialContext).1 ≠
      (completeQuest pickFirst none 0 initialContext).1 := by
  decide

/-- C3: `classifyBugSeverity` is a first-match-wins decision list in the
fixed order DRAGON, HYDRA, TROLL, ORC, GOBLIN: any description containing a
DRAGON-rule keyword classifies as DRAGON no matter which lower-tier keywords
it also contains, and in general the earliest rule whose condition holds
determines the result, each later rule firing only when every earlier rule\u0027s
condition is false. -/
theorem C3_severity_decision_list (d : String) (u : Option String) :
    (dragonKeywords.any (fun k => jsIncludes (lowerStr d) k) = true →
      classifyBugSeverity d u = BugSeverity.DRAGON) ∧
    (dragonRule (lowerStr d) ((u.map lowerStr).getD "") = true →
      classifyBugSeverity d u = BugSeverity.DRAGON) ∧
    (dragonRule (lowerStr d) ((u.map lowerStr).getD "") = false →
      hydraRule (lowerStr d) = true →
      classifyBugSeverity d u = BugSeverity.HYDRA) ∧
    (dragonRule (lowerStr d) ((u.map lowerStr).getD "") = false →
      hydraRule (lowerStr d) = false →
      trollRule (lowerStr d) = true →
      classifyBugSeverity d u = BugSeverity.TROLL) ∧
    (dragonRule (lowerStr d) ((u.map lowerStr).getD "") = false →
      hydraRule (lowerStr d) = false →
      trollRule (lowerStr d) = false →
      orcRule (lowerStr d) ((u.map lowerStr).getD "") = true →
      classifyBugSeverity d u = BugSeverity.ORC) ∧
    (dragonRule (lowerStr d) ((u.map lowerStr).getD "") = false →
      hydraRule (lowerStr d) = false →
      trollRule (lowerStr d) = false →
      orcRule (lowerStr d) ((u.map lowerStr).getD "") = false →
      classifyBugSeverity d u = BugSeverity.GOBLIN) := by
  refine ⟨?_, ?_, ?_, ?_, ?_, ?_⟩
  · intro h
    have hd : dragonRule (lowerStr d) ((u.map lowerStr).getD "") = true := by
      simp only [dragonKeywords, List.any_cons, List.any_nil, Bool.or_eq_true,
        Bool.or_false] at h
      rcases h with h | h | h | h | h <;> simp [dragonRule, h]
    simp [classifyBugSeverity, hd]
  · intro hd
    simp [classifyBugSeverity, hd]
  · intro hd hh
    simp [classifyBugSeverity, hd, hh]
  · intro hd hh ht
    simp [classifyBugSeverity, hd, hh, ht]
  · intro hd hh ht ho
    simp [classifyBugSeverity, hd, hh, ht, ho]
  · intro hd hh ht ho
    simp [classifyBugSeverity, hd, hh, ht, ho]

/-- C3 witness: a description holding the DRAGON keyword "crash" together
with lower-tier keywords ("slow" for TROLL, "complex" for HYDRA) classifies
as DRAGON, and a DRAGON-free description holding the HYDRA keyword "complex"
together with "slow" (TROLL) and "logic" (ORC) classifies as HYDRA. -/
theorem C3_witness :
    classifyBugSeverity "crash when the app is slow and complex" none = BugSeverity.DRAGON ∧
    classifyBugSeverity "complex but slow logic" none = BugSeverity.HYDRA :=
  ⟨(C3_severity_decision_list "crash when the app is slow and complex" none).1 (by decide),
   (C3_severity_decision_list "complex but slow logic" none).2.2.1 (by decide) (by decide)⟩

/-- C4 counterexample: the original claim says the HYDRA test counts the
token "and" as a word, so that "standard sandbox candy" (whose only "and"s
sit inside larger words, token count 0) would not satisfy the HYDRA rule; the
code instead counts `/and/g` substring matches (3 here) and classifies it as
HYDRA, even though no DRAGON keyword and none of multiple/several/various/
complex occur. Moreover the rule only applies when the DRAGON rule fails: the
token-rich "cat and dog and bird and fish" with urgency "critical" classifies
as DRAGON, not HYDRA. -/
theorem C4_counterexample :
    dragonKeywords.all (fun k => !(jsIncludes (lowerStr "standard sandbox candy") k)) = true ∧
    jsIncludes (lowerStr "standard sandbox candy") "multiple" = false ∧
    jsIncludes (lowerStr "standard sandbox candy") "several" = false ∧
    jsIncludes (lowerStr "standard sandbox candy") "various" = false ∧
    jsIncludes (lowerStr "standard sandbox candy") "complex" = false ∧
    specAndTokenCount "standard sandbox candy" = 0 ∧
    classifyBugSeverity "standard sandbox candy" none = BugSeverity.HYDRA ∧
    specAndTokenCount "cat and dog and bird and fish" = 3 ∧
    classifyBugSeverity "cat and dog and bird and fish" (some "critical") =
      BugSeverity.DRAGON := by
  decide

/-- C4 (amended): for every description containing none of the DRAGON
keywords and none of multiple/several/various/complex, and any urgency that
does not contain "critical" (together: the DRAGON rule fails),
`classifyBugSeverity` returns HYDRA exactly when the lowercased description
contains more than two non-overlapping substring occurrences of "and" —
occurrences inside larger words count. -/
theorem C4_hydra_substring_count (d : String) (u : Option String)
    (hdragon : dragonRule (lowerStr d) ((u.map lowerStr).getD "") = false)
    (hm : jsIncludes (lowerStr d) "multiple" = false)
    (hs : jsIncludes (lowerStr d) "several" = false)
    (hv : jsIncludes (lowerStr d) "various" = false)
    (hc : jsIncludes (lowerStr d) "complex" = false) :
    classifyBugSeverity d u = BugSeverity.HYDRA ↔ countAnd (lowerStr d).data > 2 := by
  constructor
  · intro hres
    by_contra hcnt
    have hhy : hydraRule (lowerStr d) = false := by
      simp [hydraRule, hm, hs, hv, hc, hcnt]
    simp [classifyBugSeverity, hdragon, hhy] at hres
    split at hres
    all_goals try split at hres
    all_goals simp_all
  · intro hcnt
    have hhy : hydraRule (lowerStr d) = true := by
      simp [hydraRule, hcnt]
    simp [classifyBugSeverity, hdragon, hhy]

/-- C4 witness: the amended theorem applied to "standard sandbox candy",
whose lowercased text has exactly 3 substring occurrences of "and". -/
theorem C4_witness :
    countAnd (lowerStr "standard sandbox candy").data = 3 ∧
    (classifyBugSeverity "standard sandbox candy" none = BugSeverity.HYDRA ↔
      countAnd (lowerStr "standard sandbox candy").data > 2) :=
  ⟨by decide,
   C4_hydra_substring_count "standard sandbox candy" none (by decide) (by decide)
     (by decide) (by decide) (by decide)⟩

lemma updateQuestPhase_prep (q : Quest) (hp : q.phase = QuestPhase.PREPARATION) :
    (updateQuestPhase q).phase =
      (if q.findings.length ≥ 3 then QuestPhase.INVESTIGATION else QuestPhase.PREPARATION) := by
  rw [updateQuestPhase_phase_spec, hp]
  by_cases h : q.findings.length ≥ 3 <;> simp [h]

lemma updateQuestPhase_inv (q : Quest) (hp : q.phase = QuestPhase.INVESTIGATION) :
    (updateQuestPhase q).phase =
      (if q.findings.any (fun f => f.significance == Significance.breakthrough) = true ∨
          q.findings.length ≥ 6 then QuestPhase.BATTLE else QuestPhase.INVESTIGATION) := by
  rw [updateQuestPhase_phase_spec, hp]
  by_cases h : q.findings.any (fun f => f.significance == Significance.breakthrough) = true ∨
      q.findings.length ≥ 6 <;> simp [h]

lemma updateQuestPhase_battle (q : Quest) (hp : q.phase = QuestPhase.BATTLE) :
    updateQuestPhase q = q := by
  unfold updateQuestPhase
  dsimp only
  rw [if_neg (by simp [hp]), if_neg (by simp [hp])]

/-- C5: one `continueQuest` call on an active quest appends the finding and
then advances the phase by the history rules: from PREPARATION to
INVESTIGATION exactly when the total finding count after the append is at
least 3; from INVESTIGATION to BATTLE exactly when that count is at least 6
or some finding in the whole history (the new one included) has breakthrough
significance; from BATTLE the phase and milestones never change; every
advance appends exactly one milestone and a non-advance appends none.
Concretely, opening a quest and appending 2 findings leaves PREPARATION with
no milestone, and a 3rd finding advances to INVESTIGATION with exactly one
milestone. -/
theorem C5_phase_advance (pick : Pick) (f : String) (s : Significance)
    (ctx : AdventureContext) (q : Quest) (hq : ctx.currentQuest = some q) :
    (∃ q2, (continueQuest pick f s ctx).2.currentQuest = some q2 ∧
      (q.phase = QuestPhase.PREPARATION →
        ((q2.phase = QuestPhase.INVESTIGATION ↔ q.findings.length + 1 ≥ 3) ∧
         (¬q.findings.length + 1 ≥ 3 → q2.phase = QuestPhase.PREPARATION))) ∧
      (q.phase = QuestPhase.INVESTIGATION →
        ((q2.phase = QuestPhase.BATTLE ↔
            (q.findings.length + 1 ≥ 6 ∨
              (q.findings ++ [({ finding := f, significance := s } : QuestFinding)]).any
                (fun fd => fd.significance == Significance.breakthrough) = true)) ∧
         (q2.phase ≠ QuestPhase.BATTLE → q2.phase = QuestPhase.INVESTIGATION))) ∧
      (q.phase = QuestPhase.BATTLE → q2.phase = QuestPhase.BATTLE ∧ q2.milestones = q.milestones) ∧
      (q2.phase ≠ q.phase → q2.milestones.length = q.milestones.length + 1) ∧
      (q2.phase = q.phase → q2.milestones = q.milestones)) ∧
    (∃ p2, ((continueQuest pick "f2" Significance.moderate
        ((continueQuest pick "f1" Significance.moderate
          ((startQuest pick "id" "oops" none none initialContext).2)).2)).2).currentQuest = some p2 ∧
      p2.phase = QuestPhase.PREPARATION ∧ p2.milestones = []) ∧
    (∃ p3, ((continueQuest pick "f3" Significance.minor
        ((continueQuest pick "f2" Significance.moderate
          ((continueQuest pick "f1" Significance.moderate
            ((startQuest pick "id" "oops" none none initialContext).2)).2)).2)).2).currentQuest = some p3 ∧
      p3.phase = QuestPhase.INVESTIGATION ∧ p3.milestones.length = 1) := by
  refine ⟨?_, ⟨_, rfl, rfl, rfl⟩, ⟨_, rfl, rfl, rfl⟩⟩
  have hstep := continueQuest_snd_some pick f s ctx q hq
  refine ⟨updateQuestPhase
      { q with findings := q.findings ++ [{ finding := f, significance := s }] },
    by rw [hstep], ?_, ?_, ?_, ?_, ?_⟩
  · intro hp
    have hph := updateQuestPhase_prep
      { q with findings := q.findings ++ [{ finding := f, significance := s }] } hp
    simp only [List.length_append, List.length_cons, List.length_nil, Nat.zero_add] at hph
    constructor
    · rw [hph]
      by_cases hlen : q.findings.length + 1 ≥ 3 <;> simp [hlen]
    · intro hno
      rw [hph]
      simp [hno]
  · intro hp
    have hph := updateQuestPhase_inv
      { q with findings := q.findings ++ [{ finding := f, significance := s }] } hp
    simp only [List.length_append, List.length_cons, List.length_nil, Nat.zero_add] at hph
    constructor
    · rw [hph]
      by_cases hbr : ((q.findings ++ [({ finding := f, significance := s } : QuestFinding)]).any
          (fun fd => fd.significance == Significance.breakthrough)) = true
      · rw [if_pos (Or.inl hbr)]
        exact ⟨fun _ => Or.inr hbr, fun _ => rfl⟩
      · by_cases hlen : q.findings.length + 1 ≥ 6
        · rw [if_pos (Or.inr hlen)]
          exact ⟨fun _ => Or.inl hlen, fun _ => rfl⟩
        · rw [if_neg (fun hor => hor.elim (fun h => hbr h) (fun h => hlen h))]
          exact ⟨fun h => absurd h (by decide),
            fun hor => hor.elim (fun h => absurd h hlen) (fun h => absurd h hbr)⟩
    · intro hne
      rw [hph] at hne ⊢
      by_cases hcond : ((q.findings ++ [({ finding := f, significance := s } : QuestFinding)]).any
          (fun fd => fd.significance == Significance.breakthrough)) = true ∨
          q.findings.length + 1 ≥ 6
      · rw [if_pos hcond] at hne
        exact absurd rfl hne
      · rw [if_neg hcond]
  · intro hp
    have hqq := updateQuestPhase_battle
      { q with findings := q.findings ++ [{ finding := f, significance := s }] } hp
    rw [hqq]
    exact ⟨hp, rfl⟩
  · intro hne
    rcases updateQuestPhase_cases
        { q with findings := q.findings ++ [{ finding := f, significance := s }] } with heq | hch
    · rw [heq] at hne
      exact absurd rfl hne
    · exact hch.2
  · intro heq2
    rcases updateQuestPhase_cases
        { q with findings := q.findings ++ [{ finding := f, significance := s }] } with heq | hch
    · rw [heq]
    · exact absurd heq2 hch.1

/-- C5 witness: the theorem applied to a PREPARATION quest holding 2 findings
inside a fresh context; the 3rd finding makes the after-append count 3, so
the iff yields INVESTIGATION. -/
theorem C5_witness :
    (∃ q2, (continueQuest pickFirst "f3" Significance.minor
        (ctxWith (sampleQuest QuestPhase.PREPARATION
          [{ finding := "f1", significance := Significance.moderate },
           { finding := "f2", significance := Significance.moderate }] []))).2.currentQuest = some q2 ∧
      ((sampleQuest QuestPhase.PREPARATION
          [{ finding := "f1", significance := Significance.moderate },
           { finding := "f2", significance := Significance.moderate }] []).phase = QuestPhase.PREPARATION →
        ((q2.phase = QuestPhase.INVESTIGATION ↔
            (sampleQuest QuestPhase.PREPARATION
              [{ finding := "f1", significance := Significance.moderate },
               { finding := "f2", significance := Significance.moderate }] []).findings.length + 1 ≥ 3) ∧
         (¬(sampleQuest QuestPhase.PREPARATION
              [{ finding := "f1", significance := Significance.moderate },
               { finding := "f2", significance := Significance.moderate }] []).findings.length + 1 ≥ 3 →
            q2.phase = QuestPhase.PREPARATION))) ∧
      ((sampleQuest QuestPhase.PREPARATION
          [{ finding := "f1", significance := Significance.moderate },
           { finding := "f2", significance := Significance.moderate }] []).phase = QuestPhase.INVESTIGATION →
        ((q2.phase = QuestPhase.BATTLE ↔
            ((sampleQuest QuestPhase.PREPARATION
                [{ finding := "f1", significance := Significance.moderate },
                 { finding := "f2", significance := Significance.moderate }] []).findings.length + 1 ≥ 6 ∨
              ((sampleQuest QuestPhase.PREPARATION
                  [{ finding := "f1", significance := Significance.moderate },
                   { finding := "f2", significance := Significance.moderate }] []).findings ++
                [({ finding := "f3", significance := Significance.minor } : QuestFinding)]).any
                (fun fd => fd.significance == Significance.breakthrough) = true)) ∧
         (q2.phase ≠ QuestPhase.BATTLE → q2.phase = QuestPhase.INVESTIGATION))) ∧
      ((sampleQuest QuestPhase.PREPARATION
          [{ finding := "f1", significance := Significance.moderate },
           { finding := "f2", significance := Significance.moderate }] []).phase = QuestPhase.BATTLE →
        q2.phase = QuestPhase.BATTLE ∧
        q2.milestones = (sampleQuest QuestPhase.PREPARATION
          [{ finding := "f1", significance := Significance.moderate },
           { finding := "f2", significance := Significance.moderate }] []).milestones) ∧
      (q2.phase ≠ (sampleQuest QuestPhase.PREPARATION
          [{ finding := "f1", significance := Significance.moderate },
           { finding := "f2", significance := Significance.moderate }] []).phase →
        q2.milestones.length = (sampleQuest QuestPhase.PREPARATION
          [{ finding := "f1", significance := Significance.moderate },
           { finding := "f2", significance := Significance.moderate }] []).milestones.length + 1) ∧
      (q2.phase = (sampleQuest QuestPhase.PREPARATION
          [{ finding := "f1", significance := Significance.moderate },
           { finding := "f2", significance := Significance.moderate }] []).phase →
        q2.milestones = (sampleQuest QuestPhase.PREPARATION
          [{ finding := "f1", significance := Significance.moderate },
           { finding := "f2", significance := Significance.moderate }] []).milestones)) ∧
    (∃ p2, ((continueQuest pickFirst "f2" Significance.moderate
        ((continueQuest pickFirst "f1" Significance.moderate
          ((startQuest pickFirst "id" "oops" none none initialContext).2)).2)).2).currentQuest = some p2 ∧
      p2.phase = QuestPhase.PREPARATION ∧ p2.milestones = []) ∧
    (∃ p3, ((continueQuest pickFirst "f3" Significance.minor
        ((continueQuest pickFirst "f2" Significance.moderate
          ((continueQuest pickFirst "f1" Significance.moderate
            ((startQuest pickFirst "id" "oops" none none initialContext).2)).2)).2)).2).currentQuest = some p3 ∧
      p3.phase = QuestPhase.INVESTIGATION ∧ p3.milestones.length = 1) :=
  C5_phase_advance pickFirst "f3" Significance.minor
    (ctxWith (sampleQuest QuestPhase.PREPARATION
      [{ finding := "f1", significance := Significance.moderate },
       { finding := "f2", significance := Significance.moderate }] []))
    (sampleQuest QuestPhase.PREPARATION
      [{ finding := "f1", significance := Significance.moderate },
       { finding := "f2", significance := Significance.moderate }] []) rfl

/-- C7: closing an active quest adds exactly
`base[severity] + 2 * findingCount + 5 * milestoneCount` XP to Hero Progress,
where the milestone count includes the completion milestone that `completeQuest`
itself appends; concretely, opening a GOBLIN quest ("oops"), appending 2
findings, then closing yields exactly 19 total XP from a fresh context. -/
theorem C7_experience (pick : Pick) (sol : Option String) (t : Nat)
    (ctx : AdventureContext) (q : Quest) (hq : ctx.currentQuest = some q) :
    (completeQuest pick sol t ctx).2.totalExperience =
      ctx.totalExperience +
        (baseXP q.bugSeverity + 2 * q.findings.length + 5 * (q.milestones.length + 1)) ∧
    (completeQuest pick none 0
      ((continueQuest pick "f2" Significance.moderate
        ((continueQuest pick "f1" Significance.moderate
          ((startQuest pick "id" "oops" none none initialContext).2)).2)).2)).2.totalExperience = 19 := by
  constructor
  · unfold completeQuest
    rw [hq]
    simp only [calculateExperience, List.length_append, List.length_cons, List.length_nil]
    omega
  · rfl

/-- C7 witness: the theorem applied to a fresh context holding a GOBLIN/LOGIC
quest in BATTLE phase with one finding and one milestone: closing adds
10 + 2*1 + 5*(1+1) = 22 XP. -/
theorem C7_witness :
    (completeQuest pickFirst none 0
      (ctxWith (sampleQuest QuestPhase.BATTLE
        [{ finding := "f1", significance := Significance.moderate }]
        [{ title := "m1", description := "d1", phase := QuestPhase.INVESTIGATION }]))).2.totalExperience =
      (ctxWith (sampleQuest QuestPhase.BATTLE
        [{ finding := "f1", significance := Significance.moderate }]
        [{ title := "m1", description := "d1", phase := QuestPhase.INVESTIGATION }])).totalExperience +
        (baseXP (sampleQuest QuestPhase.BATTLE
          [{ finding := "f1", significance := Significance.moderate }]
          [{ title := "m1", description := "d1", phase := QuestPhase.INVESTIGATION }]).bugSeverity +
          2 * (sampleQuest QuestPhase.BATTLE
            [{ finding := "f1", significance := Significance.moderate }]
            [{ title := "m1", description := "d1", phase := QuestPhase.INVESTIGATION }]).findings.length +
          5 * ((sampleQuest QuestPhase.BATTLE
            [{ finding := "f1", significance := Significance.moderate }]
            [{ title := "m1", description := "d1", phase := QuestPhase.INVESTIGATION }]).milestones.length + 1)) ∧
    (completeQuest pickFirst none 0
      ((continueQuest pickFirst "f2" Significance.moderate
        ((continueQuest pickFirst "f1" Significance.moderate
          ((startQuest pickFirst "id" "oops" none none initialContext).2)).2)).2)).2.totalExperience = 19 :=
  C7_experience pickFirst none 0
    (ctxWith (sampleQuest QuestPhase.BATTLE
      [{ finding := "f1", significance := Significance.moderate }]
      [{ title := "m1", description := "d1", phase := QuestPhase.INVESTIGATION }]))
    (sampleQuest QuestPhase.BATTLE
      [{ finding := "f1", significance := Significance.moderate }]
      [{ title := "m1", description := "d1", phase := QuestPhase.INVESTIGATION }]) rfl

/-- C10: one `continueQuest` call advances the phase by at most one step
along PREPARATION < INVESTIGATION < BATTLE < VICTORY, even when the history
satisfies two transition conditions at once: concretely, a 3rd finding with
breakthrough significance appended to a PREPARATION quest yields
INVESTIGATION, not BATTLE. -/
theorem C10_single_step (pick : Pick) (f : String) (s : Significance)
    (ctx : AdventureContext) (q : Quest) (hq : ctx.currentQuest = some q) :
    (∃ q2, (continueQuest pick f s ctx).2.currentQuest = some q2 ∧
      phaseIdx q2.phase ≤ phaseIdx q.phase + 1) ∧
    (∃ q3, ((continueQuest pick "c" Significance.breakthrough
        (ctxWith (sampleQuest QuestPhase.PREPARATION
          [{ finding := "a", significance := Significance.minor },
           { finding := "b", significance := Significance.minor }] []))).2).currentQuest = some q3 ∧
      q3.phase = QuestPhase.INVESTIGATION) := by
  constructor
  · exact ⟨updateQuestPhase
        { q with findings := q.findings ++ [{ finding := f, significance := s }] },
      by rw [continueQuest_snd_some pick f s ctx q hq],
      updateQuestPhase_le_succ _⟩
  · exact ⟨_, rfl, rfl⟩

/-- C10 witness: the theorem applied to a fresh context holding a
PREPARATION quest with two findings. -/
theorem C10_witness :
    (∃ q2, (continueQuest pickFirst "c" Significance.breakthrough
        (ctxWith (sampleQuest QuestPhase.PREPARATION
          [{ finding := "a", significance := Significance.minor },
           { finding := "b", significance := Significance.minor }] []))).2.currentQuest = some q2 ∧
      phaseIdx q2.phase ≤
        phaseIdx (sampleQuest QuestPhase.PREPARATION
          [{ finding := "a", significance := Significance.minor },
           { finding := "b", significance := Significance.minor }] []).phase + 1) ∧
    (∃ q3, ((continueQuest pickFirst "c" Significance.breakthrough
        (ctxWith (sampleQuest QuestPhase.PREPARATION
          [{ finding := "a", significance := Significance.minor },
           { finding := "b", significance := Significance.minor }] []))).2).currentQuest = some q3 ∧
      q3.phase = QuestPhase.INVESTIGATION) :=
  C10_single_step pickFirst "c" Significance.breakthrough
    (ctxWith (sampleQuest QuestPhase.PREPARATION
      [{ finding := "a", significance := Significance.minor },
       { finding := "b", significance := Significance.minor }] []))
    (sampleQuest QuestPhase.PREPARATION
      [{ finding := "a", significance := Significance.minor },
       { finding := "b", significance := Significance.minor }] []) rfl

/-- C6: over any sequence of lifetime operations (`append_finding`,
`seek_wisdom`, `status`, `close`) applied to a context holding a current
quest, the phase of the still-current quest never decreases along
PREPARATION < INVESTIGATION < BATTLE < VICTORY, and it never reaches VICTORY
while the quest is still the current one — VICTORY is reached only by the
explicit `close`, which archives the quest and clears the current slot. -/
theorem C6_phase_monotone (pick : Pick) (ops : List QuestOp) (ctx : AdventureContext)
    (q : Quest) (hq : ctx.currentQuest = some q) (q2 : Quest)
    (hq2 : (runOps pick ops ctx).currentQuest = some q2) :
    phaseIdx q.phase ≤ phaseIdx q2.phase ∧
    (q.phase ≠ QuestPhase.VICTORY → q2.phase ≠ QuestPhase.VICTORY) := by
  induction ops generalizing ctx q with
  | nil =>
    simp only [runOps] at hq2
    rw [hq] at hq2
    injection hq2 with h
    subst h
    exact ⟨le_refl _, fun h => h⟩
  | cons op rest ih =>
    simp only [runOps] at hq2
    cases op with
    | append f s =>
      simp only [stepOp] at hq2
      have hmid : ((continueQuest pick f s ctx).2).currentQuest =
          some (updateQuestPhase
            { q with findings := q.findings ++ [{ finding := f, significance := s }] }) := by
        rw [continueQuest_snd_some pick f s ctx q hq]
      have hrec := ih ((continueQuest pick f s ctx).2)
        (updateQuestPhase
          { q with findings := q.findings ++ [{ finding := f, significance := s }] }) hmid hq2
      refine ⟨le_trans ?_ hrec.1, fun hv => hrec.2 (updateQuestPhase_ne_victory _ hv)⟩
      exact updateQuestPhase_mono
        { q with findings := q.findings ++ [{ finding := f, significance := s }] }
    | seek h =>
      simp only [stepOp] at hq2
      rw [seekWisdom_snd] at hq2
      exact ih ctx q hq hq2
    | statusCheck e =>
      simp only [stepOp] at hq2
      exact ih ctx q hq hq2
    | close sol t =>
      simp only [stepOp] at hq2
      rw [runOps_none pick rest _ (completeQuest_clears pick sol t ctx q hq)] at hq2
      simp at hq2

/-- C6 witness: the theorem applied to a fresh PREPARATION quest and the
concrete operation sequence append, seek, status. -/
theorem C6_witness :
    phaseIdx (sampleQuest QuestPhase.PREPARATION [] []).phase ≤
      phaseIdx (updateQuestPhase
        { sampleQuest QuestPhase.PREPARATION [] [] with
            findings := [{ finding := "f", significance := Significance.moderate }] }).phase ∧
    ((sampleQuest QuestPhase.PREPARATION [] []).phase ≠ QuestPhase.VICTORY →
      (updateQuestPhase
        { sampleQuest QuestPhase.PREPARATION [] [] with
            findings := [{ finding := "f", significance := Significance.moderate }] }).phase ≠
        QuestPhase.VICTORY) :=
  C6_phase_monotone pickFirst
    [QuestOp.append "f" Significance.moderate, QuestOp.seek "x", QuestOp.statusCheck 0]
    (ctxWith (sampleQuest QuestPhase.PREPARATION [] []))
    (sampleQuest QuestPhase.PREPARATION [] []) rfl
    (updateQuestPhase
      { sampleQuest QuestPhase.PREPARATION [] [] with
          findings := [{ finding := "f", significance := Significance.moderate }] }) rfl

end RubberDucking
